import Mathlib

/-!
Verification of the go-websocket server core: the handshake negotiator
(`handler` in `main.go` / the second revision of the unnamed source file)
and the frame decoder (`parseFrame`).

Go strings are immutable byte sequences, so header values and hash inputs
are modelled as `List Nat` of byte values.  The standard-library calls the
source makes (`crypto/sha1`, `encoding/base64`, `encoding/binary`,
`bufio.Reader`) are embedded by faithful executable definitions of the
algorithms those packages implement.
-/

/-- Byte sequence of an ASCII string literal (for ASCII text the Unicode
code points coincide with the UTF-8 bytes). -/
def str (s : String) : List Nat :=
  s.data.map Char.toNat

/-! ## SHA-1 (FIPS 180-4), as implemented by Go `crypto/sha1` -/

/-- Rotate a 32-bit word left by `k` bits. -/
def rotl32 (k x : Nat) : Nat :=
  let x := x % 4294967296
  (x * 2 ^ k) % 4294967296 + x / 2 ^ (32 - k)

/-- SHA-1 round function `f_t`. -/
def sha1F (t b c d : Nat) : Nat :=
  if t < 20 then Nat.lor (Nat.land b c) (Nat.land (Nat.xor b 4294967295) d)
  else if t < 40 then Nat.xor (Nat.xor b c) d
  else if t < 60 then Nat.lor (Nat.lor (Nat.land b c) (Nat.land b d)) (Nat.land c d)
  else Nat.xor (Nat.xor b c) d

/-- SHA-1 round constant `K_t`. -/
def sha1K (t : Nat) : Nat :=
  if t < 20 then 0x5A827999
  else if t < 40 then 0x6ED9EBA1
  else if t < 60 then 0x8F1BBCDC
  else 0xCA62C1D6

/-- Group bytes into big-endian 32-bit words. -/
def toWords : List Nat → List Nat
  | a :: b :: c :: d :: rest => (((a * 256 + b) * 256 + c) * 256 + d) :: toWords rest
  | _ => []

/-- Extend the 16 block words to the 80-entry message schedule. -/
def sha1Schedule (ws : Array Nat) : Array Nat :=
  (List.range 64).foldl
    (fun ws i =>
      let t := i + 16
      ws.push (rotl32 1 (Nat.xor (Nat.xor (ws.getD (t - 3) 0) (ws.getD (t - 8) 0))
        (Nat.xor (ws.getD (t - 14) 0) (ws.getD (t - 16) 0)))))
    ws

/-- One SHA-1 round: update the five-word working state. -/
def sha1Round (ws : Array Nat) (s : Nat × Nat × Nat × Nat × Nat) (t : Nat) :
    Nat × Nat × Nat × Nat × Nat :=
  let (a, b, c, d, e) := s
  let temp := (rotl32 5 a + sha1F t b c d + e + sha1K t + ws.getD t 0) % 4294967296
  (temp, a, rotl32 30 b, c, d)

/-- Compress one 64-byte block into the running hash state. -/
def sha1Compress (h : Nat × Nat × Nat × Nat × Nat) (block : List Nat) :
    Nat × Nat × Nat × Nat × Nat :=
  let ws := sha1Schedule (toWords block).toArray
  let (h0, h1, h2, h3, h4) := h
  let (a, b, c, d, e) := (List.range 80).foldl (sha1Round ws) (h0, h1, h2, h3, h4)
  ((h0 + a) % 4294967296, (h1 + b) % 4294967296, (h2 + c) % 4294967296,
   (h3 + d) % 4294967296, (h4 + e) % 4294967296)

/-- `k` big-endian bytes of `n`. -/
def beBytes (k n : Nat) : List Nat :=
  match k with
  | 0 => []
  | k + 1 => beBytes k (n / 256) ++ [n % 256]

/-- Merkle–Damgård padding: append `0x80`, zero bytes to 56 mod 64, then the
64-bit big-endian bit length. -/
def sha1Pad (msg : List Nat) : List Nat :=
  let z := (119 - msg.length % 64) % 64
  msg ++ [128] ++ List.replicate z 0 ++ beBytes 8 (msg.length * 8)

/-- Split a byte list into 64-byte blocks (structural recursion on a fuel
bound so the definition reduces inside the kernel; `fuel = l.length` always
suffices because every step consumes at least one byte). -/
def chunksAux : Nat → List Nat → List (List Nat)
  | 0, _ => []
  | _, [] => []
  | fuel + 1, x :: xs => ((x :: xs).take 64) :: chunksAux fuel (xs.drop 63)

/-- Split a byte list into 64-byte blocks. -/
def chunks64 (l : List Nat) : List (List Nat) :=
  chunksAux l.length l

/-- SHA-1 digest: 20 bytes. -/
def sha1 (msg : List Nat) : List Nat :=
  let (h0, h1, h2, h3, h4) :=
    (chunks64 (sha1Pad msg)).foldl sha1Compress
      (0x67452301, 0xEFCDAB89, 0x98BADCFE, 0x10325476, 0xC3D2E1F0)
  beBytes 4 h0 ++ beBytes 4 h1 ++ beBytes 4 h2 ++ beBytes 4 h3 ++ beBytes 4 h4

/-! ## Standard base64 (RFC 4648, padded), as implemented by Go
`base64.StdEncoding.EncodeToString` -/

/-- The standard (non-URL) base64 alphabet, as bytes. -/
def base64Alphabet : List Nat :=
  str "ABCDEFGHIJKLMNOPQRSTUVWXYZabcdefghijklmnopqrstuvwxyz0123456789+/"

/-- Byte of the base64 character for a 6-bit value. -/
def b64c (n : Nat) : Nat :=
  base64Alphabet.getD n 0

/-- Standard base64 encoding with `=` (byte 61) padding. -/
def base64Encode : List Nat → List Nat
  | [] => []
  | [a] => [b64c (a / 4), b64c (a % 4 * 16), 61, 61]
  | [a, b] => [b64c (a / 4), b64c (a % 4 * 16 + b / 16), b64c (b % 16 * 4), 61]
  | a :: b :: c :: rest =>
    b64c (a / 4) :: b64c (a % 4 * 16 + b / 16) :: b64c (b % 16 * 4 + c / 64)
      :: b64c (c % 64) :: base64Encode rest

/-! ## Handshake negotiator -/

/-- `const acceptMagicGUID = "258EAFA5-E914-47DA-95CA-C5AB0DC85B11"`. -/
def acceptMagicGUID : List Nat :=
  str "258EAFA5-E914-47DA-95CA-C5AB0DC85B11"

/-- The accept-credential computation of `handler`:
`key += acceptMagicGUID; h := sha1.New(); io.WriteString(h, key);`
`accept := base64.StdEncoding.EncodeToString(h.Sum(nil))`. -/
def computeAccept (key : List Nat) : List Nat :=
  base64Encode (sha1 (key ++ acceptMagicGUID))

/-- The request headers `handler` consumes.  Each field holds the result the
Go code obtains from the header map: `upgradeH` and `connectionH` model
`r.Header.Get("Upgrade")` / `r.Header.Get("Connection")` (first value, or the
empty string when absent), `secWebSocketKey` models
`r.Header.Get("Sec-WebSocket-Key")`, and `secWebSocketProtocol` models
`r.Header.Values("Sec-WebSocket-Protocol")`. -/
structure Request where
  upgradeH : List Nat
  connectionH : List Nat
  secWebSocketKey : List Nat
  secWebSocketProtocol : List (List Nat)
deriving DecidableEq, Repr

/-- The response `handler` commits: the status code written (Go's `net/http`
writes an implicit `200 OK` when the handler returns without calling
`WriteHeader`) and the four response headers the code may set. -/
structure Response where
  status : Nat
  upgradeH : Option (List Nat) := none
  connectionH : Option (List Nat) := none
  acceptH : Option (List Nat) := none
  protocolH : Option (List Nat) := none
deriving DecidableEq, Repr

/-- The handshake negotiator (`handler`, up to the committed response).
`hijackable` models the `w.(http.Hijacker)` type assertion; the hijack and
frame read that follow `WriteHeader(101)` do not change the already-written
status or headers. -/
def handler (hijackable : Bool) (r : Request) : Response :=
  if r.upgradeH ≠ str "websocket" ∧ r.connectionH ≠ str "Upgrade" then
    { status := 400 }
  else
    match r.secWebSocketProtocol with
    | p :: _ => { status := 200, protocolH := some p }
    | [] =>
      if hijackable = false then
        { status := 501 }
      else
        { status := 101, upgradeH := some (str "websocket"),
          connectionH := some (str "Upgrade"),
          acceptH := some (computeAccept r.secWebSocketKey) }

/-! ## Frame decoder (`parseFrame`) -/

/-- The decoded frame struct:
`type frame struct { final bool; opcode opcode; length uint64; payload []byte }`.
(The struct has no masking-key field.) -/
structure Frame where
  final : Bool
  opcode : Nat
  length : Nat
  payload : List Nat
deriving DecidableEq, Repr

/-- The zero value `frame{}` returned alongside every error. -/
def Frame.zero : Frame := ⟨false, 0, 0, []⟩

/-- The errors `parseFrame` produces, all read failures:
`readEOF` for `fmt.Errorf("read failed: %w", err)` and
`shortRead expected got` for
`fmt.Errorf("read failed: expected %d bytes, got %d", expected, got)`. -/
inductive GoError where
  | readEOF
  | shortRead (expected got : Nat)
deriving DecidableEq, Repr

/-- Outcome of a `parseFrame` call.  Go returns the pair `(frame, error)`;
`ok f` is `(f, nil)`, `err f e` is `(f, e)` with `e ≠ nil`, and `panicked`
models a runtime panic (no return value at all). -/
inductive ParseResult where
  | ok (f : Frame)
  | err (f : Frame) (e : GoError)
  | panicked
deriving DecidableEq, Repr

/-- Result of one `bufio.Reader.Read` call. -/
inductive ReadRes where
  | bytes (bs rest : List Nat)
  | eof
deriving DecidableEq, Repr

/-- `bufio.Reader.Read` into a `k`-byte buffer, over the total byte sequence
the peer delivers before closing: a zero-length buffer returns immediately
with no bytes and no error; on an exhausted stream the underlying `io.EOF`
surfaces; otherwise up to `k` buffered bytes are returned. -/
def bufRead (k : Nat) (s : List Nat) : ReadRes :=
  if k = 0 then .bytes [] s
  else
    match s with
    | [] => .eof
    | _ => .bytes (s.take k) (s.drop k)

/-- `binary.BigEndian.Uint64`: requires at least 8 bytes (`_ = b[7]` is a
bounds check that panics on a shorter slice, modelled by `none`) and combines
the first 8 bytes big-endian. -/
def bigEndianUint64 (b : List Nat) : Option Nat :=
  match b with
  | b0 :: b1 :: b2 :: b3 :: b4 :: b5 :: b6 :: b7 :: _ =>
    some (((((((b0 * 256 + b1) * 256 + b2) * 256 + b3) * 256 + b4) * 256 + b5)
      * 256 + b6) * 256 + b7)
  | _ => none

/-- Final stage of `parseFrame`: `payload := make([]byte, length)` followed by
the checked `buf.Read(payload)` and construction of the frame literal.
`make([]byte, length)` panics (`makeslice: len out of range`) when `length`
exceeds `maxInt` = `2^63 - 1` on a 64-bit platform, before any read. -/
def finishFrame (fin op length : Nat) (s : List Nat) : ParseResult :=
  if 9223372036854775807 < length then .panicked
  else
    match bufRead length s with
    | .eof => .err Frame.zero .readEOF
    | .bytes payload _ =>
      if payload.length ≠ length then .err Frame.zero (.shortRead length payload.length)
      else .ok ⟨fin == 128, op, length, payload⟩

/-- Masking-key stage of `parseFrame`: when the mask bit was set, 4 key bytes
are read and count-checked, then dropped — the local `maskingKey` is never
used again, so the payload is not unmasked and the key is not recorded. -/
def readMaskingKey (fin op mask length : Nat) (s : List Nat) : ParseResult :=
  if mask = 128 then
    match bufRead 4 s with
    | .eof => .err Frame.zero .readEOF
    | .bytes key rest =>
      if key.length ≠ 4 then .err Frame.zero (.shortRead 4 key.length)
      else finishFrame fin op length rest
  else finishFrame fin op length s

/-- Extended-length stage of `parseFrame`.  In the `length == 126` branch the
code reads 2 bytes into `var b [2]byte` and then calls
`binary.BigEndian.Uint64(b[:])` on the 2-byte slice, which panics with an
index-out-of-range runtime error. -/
def parseExtLen (fin op mask length : Nat) (s : List Nat) : ParseResult :=
  if length = 126 then
    match bufRead 2 s with
    | .eof => .err Frame.zero .readEOF
    | .bytes bs rest =>
      if bs.length ≠ 2 then .err Frame.zero (.shortRead 2 bs.length)
      else
        match bigEndianUint64 bs with
        | none => .panicked
        | some v => readMaskingKey fin op mask v rest
  else if length = 127 then
    match bufRead 8 s with
    | .eof => .err Frame.zero .readEOF
    | .bytes bs rest =>
      if bs.length ≠ 8 then .err Frame.zero (.shortRead 8 bs.length)
      else
        match bigEndianUint64 bs with
        | none => .panicked
        | some v => readMaskingKey fin op mask v rest
  else readMaskingKey fin op mask length s

/-- `parseFrame(buf *bufio.Reader) (frame, error)`, over the byte sequence the
reader will deliver.  The two header bytes are obtained by `buf.ReadByte()`;
`fin`, `op`, `mask` and the base `length` are the bit fields the code
extracts (`b & 0x80`, `b & 0x0F`, `b & 0x80`, `b & 0x7F`). -/
def parseFrame (s : List Nat) : ParseResult :=
  match s with
  | [] => .err Frame.zero .readEOF
  | b0 :: s1 =>
    match s1 with
    | [] => .err Frame.zero .readEOF
    | b1 :: s2 =>
      parseExtLen (Nat.land b0 128) (Nat.land b0 15) (Nat.land b1 128)
        (Nat.land b1 127) s2

/-- Modelled from the spec: the receive-path unmasking the spec mandates —
payload byte `i` XOR-ed with masking-key byte `i mod 4`.  (The source never
performs this step; the definition exists to compare the decoder's delivered
payload against the specified one.) -/
def specUnmask (key payload : List Nat) : List Nat :=
  (List.range payload.length).map (fun i => Nat.xor (payload.getD i 0) (key.getD (i % 4) 0))


/-! ## Helper lemmas about the decoder stages -/

theorem bufRead_len_le {k : Nat} {s bs rest : List Nat}
    (h : bufRead k s = .bytes bs rest) : bs.length ≤ k := by
  unfold bufRead at h
  split at h
  · injection h with h1 h2
    subst h1
    simp
  · split at h
    · cases h
    · injection h with h1 h2
      subst h1
      simp [List.length_take]

theorem finishFrame_ok {fin op L : Nat} {s : List Nat} {f : Frame}
    (h : finishFrame fin op L s = .ok f) :
    f.final = (fin == 128) ∧ f.opcode = op ∧ f.length = L ∧ f.payload.length = L := by
  unfold finishFrame at h
  split at h
  · cases h
  · split at h
    · cases h
    · next payload rest heq =>
      split at h
      · cases h
      · next hlen =>
        injection h with h1
        subst h1
        exact ⟨rfl, rfl, rfl, not_ne_iff.mp hlen⟩

theorem finishFrame_err {fin op L : Nat} {s : List Nat} {f : Frame} {e : GoError}
    (h : finishFrame fin op L s = .err f e) :
    f = Frame.zero ∧ (e = .readEOF ∨ ∃ exp got, e = .shortRead exp got ∧ got < exp) := by
  unfold finishFrame at h
  split at h
  · cases h
  · split at h
    · injection h with h1 h2
      exact ⟨h1.symm, .inl h2.symm⟩
    · next payload rest heq =>
      split at h
      · next hlen =>
        injection h with h1 h2
        have hle := bufRead_len_le heq
        refine ⟨h1.symm, .inr ⟨L, payload.length, h2.symm, ?_⟩⟩
        omega
      · cases h

theorem readMaskingKey_ok {fin op mask L : Nat} {s : List Nat} {f : Frame}
    (h : readMaskingKey fin op mask L s = .ok f) :
    f.final = (fin == 128) ∧ f.opcode = op ∧ f.length = L ∧ f.payload.length = L := by
  unfold readMaskingKey at h
  split at h
  · split at h
    · cases h
    · split at h
      · cases h
      · exact finishFrame_ok h
  · exact finishFrame_ok h

theorem readMaskingKey_err {fin op mask L : Nat} {s : List Nat} {f : Frame} {e : GoError}
    (h : readMaskingKey fin op mask L s = .err f e) :
    f = Frame.zero ∧ (e = .readEOF ∨ ∃ exp got, e = .shortRead exp got ∧ got < exp) := by
  unfold readMaskingKey at h
  split at h
  · split at h
    · injection h with h1 h2
      exact ⟨h1.symm, .inl h2.symm⟩
    · next key rest heq =>
      split at h
      · next hlen =>
        injection h with h1 h2
        have hle := bufRead_len_le heq
        refine ⟨h1.symm, .inr ⟨4, key.length, h2.symm, ?_⟩⟩
        omega
      · exact finishFrame_err h
  · exact finishFrame_err h

theorem parseExtLen_ok {fin op mask L : Nat} {s : List Nat} {f : Frame}
    (h : parseExtLen fin op mask L s = .ok f) :
    f.final = (fin == 128) ∧ f.opcode = op ∧ f.payload.length = f.length := by
  unfold parseExtLen at h
  split at h
  · split at h
    · cases h
    · split at h
      · cases h
      · split at h
        · cases h
        · obtain ⟨h1, h2, h3, h4⟩ := readMaskingKey_ok h
          exact ⟨h1, h2, h4.trans h3.symm⟩
  · split at h
    · split at h
      · cases h
      · split at h
        · cases h
        · split at h
          · cases h
          · obtain ⟨h1, h2, h3, h4⟩ := readMaskingKey_ok h
            exact ⟨h1, h2, h4.trans h3.symm⟩
    · obtain ⟨h1, h2, h3, h4⟩ := readMaskingKey_ok h
      exact ⟨h1, h2, h4.trans h3.symm⟩

theorem parseExtLen_err {fin op mask L : Nat} {s : List Nat} {f : Frame} {e : GoError}
    (h : parseExtLen fin op mask L s = .err f e) :
    f = Frame.zero ∧ (e = .readEOF ∨ ∃ exp got, e = .shortRead exp got ∧ got < exp) := by
  unfold parseExtLen at h
  split at h
  · split at h
    · injection h with h1 h2
      exact ⟨h1.symm, .inl h2.symm⟩
    · next bs rest heq =>
      split at h
      · next hlen =>
        injection h with h1 h2
        have hle := bufRead_len_le heq
        refine ⟨h1.symm, .inr ⟨2, bs.length, h2.symm, ?_⟩⟩
        omega
      · split at h
        · cases h
        · exact readMaskingKey_err h
  · split at h
    · split at h
      · injection h with h1 h2
        exact ⟨h1.symm, .inl h2.symm⟩
      · next bs rest heq =>
        split at h
        · next hlen =>
          injection h with h1 h2
          have hle := bufRead_len_le heq
          refine ⟨h1.symm, .inr ⟨8, bs.length, h2.symm, ?_⟩⟩
          omega
        · split at h
          · cases h
          · exact readMaskingKey_err h
    · exact readMaskingKey_err h

theorem parseFrame_err_inv {s : List Nat} {f : Frame} {e : GoError}
    (h : parseFrame s = .err f e) :
    f = Frame.zero ∧ (e = .readEOF ∨ ∃ exp got, e = .shortRead exp got ∧ got < exp) := by
  match s, h with
  | [], h =>
    injection h with h1 h2
    exact ⟨h1.symm, .inl h2.symm⟩
  | [b0], h =>
    injection h with h1 h2
    exact ⟨h1.symm, .inl h2.symm⟩
  | b0 :: b1 :: s2, h => exact parseExtLen_err h

theorem finishFrame_exact (fin op : Nat) (payload : List Nat)
    (hmax : payload.length ≤ 9223372036854775807) :
    finishFrame fin op payload.length payload = .ok ⟨fin == 128, op, payload.length, payload⟩ := by
  unfold finishFrame
  rw [if_neg (by omega)]
  cases payload with
  | nil => rfl
  | cons p ps =>
    have hb : bufRead (p :: ps).length (p :: ps) = .bytes (p :: ps) [] := by
      unfold bufRead
      rw [if_neg (by simp)]
      simp
    rw [hb]
    simp

theorem readMaskingKey_unmasked (fin op mask : Nat) (payload : List Nat)
    (hm : mask ≠ 128) (hmax : payload.length ≤ 9223372036854775807) :
    readMaskingKey fin op mask payload.length payload =
      .ok ⟨fin == 128, op, payload.length, payload⟩ := by
  unfold readMaskingKey
  rw [if_neg hm]
  exact finishFrame_exact fin op payload hmax

theorem readMaskingKey_masked (fin op k1 k2 k3 k4 : Nat) (payload : List Nat)
    (hmax : payload.length ≤ 9223372036854775807) :
    readMaskingKey fin op 128 payload.length (k1 :: k2 :: k3 :: k4 :: payload) =
      .ok ⟨fin == 128, op, payload.length, payload⟩ := by
  unfold readMaskingKey
  rw [if_pos rfl]
  exact finishFrame_exact fin op payload hmax

/-! ## Claim theorems -/

set_option maxRecDepth 10000 in
/-- Claim C1: for every `Sec-WebSocket-Key` value `k`, the handshake
negotiator derives the accept credential as the standard padded base64
encoding of the SHA-1 digest of the bytes of `k` concatenated with the magic
string `258EAFA5-E914-47DA-95CA-C5AB0DC85B11`; in particular the key
`dGhlIHNhbXBsZSBub25jZQ==` yields `s3pPLMBiTxaQ9kYGzzhZRbK+xOo=`. -/
theorem accept_credential_derivation :
    (∀ key : List Nat, computeAccept key =
      base64Encode (sha1 (key ++ str "258EAFA5-E914-47DA-95CA-C5AB0DC85B11"))) ∧
    computeAccept (str "dGhlIHNhbXBsZSBub25jZQ==") = str "s3pPLMBiTxaQ9kYGzzhZRbK+xOo=" :=
  ⟨fun _ => rfl, by decide⟩

/-- Claim C2, counterexample: a request that passes the upgrade-signal check
and requests subprotocol `chat` does not get a `101 Switching Protocols`
handshake — the handler returns early after echoing the protocol header, so
the response has implicit status 200 and carries none of the `Upgrade`,
`Connection`, or `Sec-WebSocket-Accept` headers. -/
theorem protocol_request_response_cex :
    handler true ⟨str "websocket", [], str "dGhlIHNhbXBsZSBub25jZQ==", [str "chat"]⟩ =
      { status := 200, protocolH := some (str "chat") } ∧
    (handler true ⟨str "websocket", [], str "dGhlIHNhbXBsZSBub25jZQ==", [str "chat"]⟩).status ≠ 101 := by
  constructor
  · rfl
  · decide

/-- Claim C2 (amended): for every request that passes the upgrade-signal
check and carries at least one `Sec-WebSocket-Protocol` value, the handler
sets `Sec-WebSocket-Protocol` to the first requested value and returns
immediately: the response has implicit status 200 and no `Upgrade`,
`Connection`, or `Sec-WebSocket-Accept` header, so no accepted handshake is
produced. -/
theorem protocol_echo_early_return (hij : Bool) (r : Request) (p : List Nat)
    (ps : List (List Nat))
    (hsig : r.upgradeH = str "websocket" ∨ r.connectionH = str "Upgrade")
    (hp : r.secWebSocketProtocol = p :: ps) :
    handler hij r = { status := 200, protocolH := some p } := by
  have hcond : ¬(r.upgradeH ≠ str "websocket" ∧ r.connectionH ≠ str "Upgrade") := by
    rcases hsig with h | h <;> simp [h]
  unfold handler
  rw [if_neg hcond, hp]

/-- Witness for the amended claim C2 at a concrete request. -/
theorem protocol_echo_early_return_witness :
    handler true ⟨str "websocket", [], str "k", [str "chat"]⟩ =
      { status := 200, protocolH := some (str "chat") } :=
  protocol_echo_early_return true _ (str "chat") [] (Or.inl rfl) rfl

/-- Claim C3, code bug: on a stream whose base length field is 126 and which
supplies both extended-length bytes, `parseFrame` does not return the 2-byte
big-endian payload length — it calls `binary.BigEndian.Uint64` on the 2-byte
buffer `b[:]`, whose `_ = b[7]` bounds check panics with an
index-out-of-range runtime error. -/
theorem extlen126_uint64_panics :
    parseFrame [129, 126, 0, 1, 171] = .panicked := by
  rfl

/-- Claim C4, counterexample: a masked frame (key `01 02 03 04`, one raw
payload byte `0x10`) decodes to the raw wire payload `[0x10]` — the decoder
never XORs the payload with the masking key (the spec-mandated unmasking
would deliver `[0x11]`), and the returned `frame` struct has no masking-key
field at all. -/
theorem masked_payload_not_unmasked_cex :
    parseFrame [129, 129, 1, 2, 3, 4, 16] = .ok ⟨true, 1, 1, [16]⟩ ∧
    specUnmask [1, 2, 3, 4] [16] = [17] := by
  constructor
  · rfl
  · rfl

/-- Claim C4 (amended): for every masked frame, `parseFrame` reads and
count-checks the 4 masking-key bytes but then discards them: the delivered
payload is the raw wire payload with no XOR applied, and the frame records
no masking key (the struct has no such field). -/
theorem masking_key_discarded (b0 b1 k1 k2 k3 k4 : Nat) (payload : List Nat)
    (hm : Nat.land b1 128 = 128) (hl : Nat.land b1 127 ≤ 125)
    (hp : payload.length = Nat.land b1 127) :
    parseFrame (b0 :: b1 :: k1 :: k2 :: k3 :: k4 :: payload) =
      .ok ⟨Nat.land b0 128 == 128, Nat.land b0 15, Nat.land b1 127, payload⟩ := by
  have h126 : Nat.land b1 127 ≠ 126 := by omega
  have h127 : Nat.land b1 127 ≠ 127 := by omega
  show parseExtLen (Nat.land b0 128) (Nat.land b0 15) (Nat.land b1 128)
      (Nat.land b1 127) (k1 :: k2 :: k3 :: k4 :: payload) = _
  unfold parseExtLen
  rw [if_neg h126, if_neg h127, hm, ← hp]
  exact readMaskingKey_masked (Nat.land b0 128) (Nat.land b0 15) k1 k2 k3 k4 payload
    (by omega)

/-- Witness for the amended claim C4 at a concrete masked frame. -/
theorem masking_key_discarded_witness :
    parseFrame [129, 129, 5, 6, 7, 8, 32] =
      .ok ⟨Nat.land 129 128 == 128, Nat.land 129 15, Nat.land 129 127, [32]⟩ :=
  masking_key_discarded 129 129 5 6 7 8 [32] (by decide) (by decide) (by decide)

/-- Claim C5, counterexample: an unmasked client frame (MASK bit clear) is
not rejected — `parseFrame` decodes it successfully; the code contains no
masking-requirement check at all. -/
theorem unmasked_frame_accepted_cex :
    parseFrame [129, 1, 65] = .ok ⟨true, 1, 1, [65]⟩ := by
  rfl

/-- Claim C5 (amended): for every frame whose second byte has the MASK bit
clear and base length at most 125, `parseFrame` returns a decoded frame
normally (given the payload bytes); no `Malformed` rejection of unmasked
frames exists in the decoder. -/
theorem unmasked_frame_decodes (b0 b1 : Nat) (payload : List Nat)
    (hm : Nat.land b1 128 = 0) (hl : Nat.land b1 127 ≤ 125)
    (hp : payload.length = Nat.land b1 127) :
    parseFrame (b0 :: b1 :: payload) =
      .ok ⟨Nat.land b0 128 == 128, Nat.land b0 15, Nat.land b1 127, payload⟩ := by
  have h126 : Nat.land b1 127 ≠ 126 := by omega
  have h127 : Nat.land b1 127 ≠ 127 := by omega
  show parseExtLen (Nat.land b0 128) (Nat.land b0 15) (Nat.land b1 128)
      (Nat.land b1 127) payload = _
  unfold parseExtLen
  rw [if_neg h126, if_neg h127, ← hp]
  exact readMaskingKey_unmasked (Nat.land b0 128) (Nat.land b0 15) (Nat.land b1 128)
    payload (by omega) (by omega)

/-- Witness for the amended claim C5 at a concrete unmasked frame. -/
theorem unmasked_frame_decodes_witness :
    parseFrame [130, 2, 9, 10] =
      .ok ⟨Nat.land 130 128 == 128, Nat.land 130 15, Nat.land 2 127, [9, 10]⟩ :=
  unmasked_frame_decodes 130 2 [9, 10] (by decide) (by decide) (by decide)

/-- Claim C6, counterexample: a first byte with a reserved bit set
(`0xC1` = FIN + RSV1 + opcode 1) is not rejected as `Malformed` —
`parseFrame` masks the byte with `0x80` and `0x0F`, silently discarding
bits 4–6, and decodes the frame successfully. -/
theorem reserved_bits_ignored_cex :
    parseFrame [193, 0] = .ok ⟨true, 1, 0, []⟩ := by
  rfl

/-- Claim C6 (amended): the reserved bits 4–6 of the first byte are ignored,
not checked: for every first byte (reserved bits set or not), a successfully
decoded frame has `final` equal to bit 7 and `opcode` equal to bits 0–3 of
that byte. -/
theorem fin_opcode_extraction (b0 : Nat) (s1 : List Nat) (f : Frame)
    (h : parseFrame (b0 :: s1) = .ok f) :
    f.final = (Nat.land b0 128 == 128) ∧ f.opcode = Nat.land b0 15 := by
  match s1, h with
  | [], h => cases h
  | b1 :: s2, h =>
    obtain ⟨h1, h2, _⟩ := parseExtLen_ok h
    exact ⟨h1, h2⟩

/-- Witness for the amended claim C6 at a frame whose first byte has a
reserved bit set. -/
theorem fin_opcode_extraction_witness :
    (Frame.mk true 1 0 []).final = (Nat.land 193 128 == 128) ∧
    (Frame.mk true 1 0 []).opcode = Nat.land 193 15 :=
  fin_opcode_extraction 193 [0] (Frame.mk true 1 0 []) (by rfl)

/-- Claim C7, counterexample: with base length 127 and extended-length bytes
`80 00 00 00 00 00 00 00` (high bit set, value `2^63`), `parseFrame` does
not return a `Malformed` error — it adopts `2^63` as the payload length and
panics at `payload := make([]byte, length)` (`makeslice: len out of range`,
since `2^63` exceeds `maxInt`), before any payload read. -/
theorem len127_highbit_not_malformed_cex :
    parseFrame [129, 127, 128, 0, 0, 0, 0, 0, 0, 0, 65] = .panicked := by
  rfl

/-- Claim C7 (amended): when the base length field is 127 the next 8 bytes,
read as a big-endian unsigned 64-bit integer, become the actual payload
length unconditionally — the decoder performs no high-bit check.  A value
with the high bit zero (at most `maxInt` = `2^63 - 1`) becomes the expected
payload length of a normal decode; a value with the high bit set (exceeding
`maxInt`) is not rejected as `Malformed` either: the decoder panics at the
`make([]byte, length)` allocation. -/
theorem len127_bigendian_length :
    (∀ (b0 b1 e1 e2 e3 e4 e5 e6 e7 e8 : Nat) (payload : List Nat),
      Nat.land b1 127 = 127 → Nat.land b1 128 = 0 →
      payload.length =
        ((((((e1 * 256 + e2) * 256 + e3) * 256 + e4) * 256 + e5) * 256 + e6) * 256 + e7)
          * 256 + e8 →
      payload.length ≤ 9223372036854775807 →
      parseFrame (b0 :: b1 :: e1 :: e2 :: e3 :: e4 :: e5 :: e6 :: e7 :: e8 :: payload) =
        .ok ⟨Nat.land b0 128 == 128, Nat.land b0 15, payload.length, payload⟩) ∧
    (∀ (b0 b1 e1 e2 e3 e4 e5 e6 e7 e8 : Nat) (rest : List Nat),
      Nat.land b1 127 = 127 → Nat.land b1 128 = 0 →
      9223372036854775807 <
        ((((((e1 * 256 + e2) * 256 + e3) * 256 + e4) * 256 + e5) * 256 + e6) * 256 + e7)
          * 256 + e8 →
      parseFrame (b0 :: b1 :: e1 :: e2 :: e3 :: e4 :: e5 :: e6 :: e7 :: e8 :: rest) =
        .panicked) := by
  constructor
  · intro b0 b1 e1 e2 e3 e4 e5 e6 e7 e8 payload hl hm hp hmax
    show parseExtLen (Nat.land b0 128) (Nat.land b0 15) (Nat.land b1 128)
        (Nat.land b1 127) (e1 :: e2 :: e3 :: e4 :: e5 :: e6 :: e7 :: e8 :: payload) = _
    rw [hl]
    show readMaskingKey (Nat.land b0 128) (Nat.land b0 15) (Nat.land b1 128)
        (((((((e1 * 256 + e2) * 256 + e3) * 256 + e4) * 256 + e5) * 256 + e6) * 256 + e7)
          * 256 + e8) payload = _
    rw [← hp]
    exact readMaskingKey_unmasked (Nat.land b0 128) (Nat.land b0 15) (Nat.land b1 128)
      payload (by omega) hmax
  · intro b0 b1 e1 e2 e3 e4 e5 e6 e7 e8 rest hl hm hbig
    show parseExtLen (Nat.land b0 128) (Nat.land b0 15) (Nat.land b1 128)
        (Nat.land b1 127) (e1 :: e2 :: e3 :: e4 :: e5 :: e6 :: e7 :: e8 :: rest) = _
    rw [hl]
    show readMaskingKey (Nat.land b0 128) (Nat.land b0 15) (Nat.land b1 128)
        (((((((e1 * 256 + e2) * 256 + e3) * 256 + e4) * 256 + e5) * 256 + e6) * 256 + e7)
          * 256 + e8) rest = _
    unfold readMaskingKey
    rw [if_neg (by omega)]
    unfold finishFrame
    rw [if_pos hbig]

/-- Witness for the amended claim C7 at a concrete 127-length frame with
extended length 1. -/
theorem len127_bigendian_length_witness :
    parseFrame [129, 127, 0, 0, 0, 0, 0, 0, 0, 1, 66] =
      .ok ⟨Nat.land 129 128 == 128, Nat.land 129 15, List.length [66], [66]⟩ :=
  len127_bigendian_length.1 129 127 0 0 0 0 0 0 0 1 [66] (by decide) (by decide)
    (by decide) (by decide)

/-- Claim C8: the handler rejects a request with status 400 if and only if
the request lacks both an `Upgrade: websocket` header and a
`Connection: Upgrade` header — either signal alone suffices to proceed, so
the accept condition is an OR of the two. -/
theorem reject400_iff_missing_upgrade_signals (hij : Bool) (r : Request) :
    (handler hij r).status = 400 ↔
      (r.upgradeH ≠ str "websocket" ∧ r.connectionH ≠ str "Upgrade") := by
  unfold handler
  split
  · next hcond => exact iff_of_true rfl hcond
  · next hcond =>
    refine iff_of_false ?_ hcond
    split
    · simp
    · split
      · simp
      · simp

/-- Claim C9: on every successful decode the returned frame satisfies
`payloadLength == len(payload)`, and every failing length-prefixed read
produces a read error — either the underlying end-of-stream error or a
short-read error reporting strictly fewer bytes obtained than required —
never a zero-padded or partially filled frame. -/
theorem decode_length_invariant :
    (∀ s f, parseFrame s = .ok f → f.length = f.payload.length) ∧
    (∀ s f e, parseFrame s = .err f e →
      e = GoError.readEOF ∨ ∃ exp got, e = GoError.shortRead exp got ∧ got < exp) := by
  constructor
  · intro s f h
    match s, h with
    | [], h => cases h
    | [b0], h => cases h
    | b0 :: b1 :: s2, h => exact (parseExtLen_ok h).2.2.symm
  · intro s f e h
    exact (parseFrame_err_inv h).2

/-- Witness for claim C9: the invariant instantiated at a concrete
successful decode. -/
theorem decode_length_invariant_witness :
    (Frame.mk true 2 1 [7]).length = (Frame.mk true 2 1 [7]).payload.length :=
  decode_length_invariant.1 [130, 1, 7] (Frame.mk true 2 1 [7]) (by rfl)

/-- Claim C10: whenever `parseFrame` returns an error, the frame value
returned beside it is the zero frame `frame{}` (final false, opcode 0,
length 0, empty payload) — no partially decoded frame escapes on any error
path. -/
theorem error_returns_zero_frame (s : List Nat) (f : Frame) (e : GoError)
    (h : parseFrame s = .err f e) : f = Frame.zero :=
  (parseFrame_err_inv h).1

/-- Witness for claim C10 at the empty stream. -/
theorem error_returns_zero_frame_witness : Frame.zero = Frame.zero :=
  error_returns_zero_frame [] Frame.zero GoError.readEOF (by rfl)
